import Mathlib

/-!
Shallow embedding of the RomFS virtual-filesystem adapter
(`src/fuse3ds/mount/romfs.py`, class `RomFSMount`).

The adapter translates filesystem operations (attribute query, directory
listing, positioned read, volume statistics, open, teardown) into calls
against an Archive Reader (`pyctr.types.romfs.RomFSReader`). The Reader's
source is not part of this excerpt; its interface is modelled from the
spec's external-interface contract (lookup, data read with the caller-side
bound `offset + size ≤ entry.size`, total size, close). Bytes are modelled
as `List Nat`, Python dicts of fixed shape as structures, raised
exceptions as `Except`.
-/

/-- An Entry returned by the Reader's path lookup
(`RomFSReader.get_info_from_path`): `type` is the Python type tag
(the code compares it against the strings "dir" and "file"), `size` and
`offset` describe a file's data span, `contents` is a directory's list of
child names. The field `data` is modelled from the spec: the file's byte
content held in the archive; a well-formed file entry carries exactly
`size` bytes of data. -/
structure Entry where
  type : String
  size : Nat
  offset : Nat
  contents : List String
  data : List Nat
deriving DecidableEq, Repr

/-- The Archive Reader as the adapter consumes it: a path-lookup map
(`get_info_from_path`, returning `none` where the Python code raises
`RomFSFileNotFoundError`) and the archive's `total_size`. -/
structure Reader where
  lookup : String → Option Entry
  total_size : Nat

/-- Modelled from the spec: the Reader's data-read primitive
`readData(reader, entry, offset, size) → bytes`
(`RomFSReader.get_data`, whose source is not part of this excerpt).
The caller guarantees `offset + size ≤ entry.size`; under that guarantee
it returns exactly the `size` bytes of the entry's data starting at
`offset`. -/
def Reader.get_data (item : Entry) (offset size : Nat) : List Nat :=
  (item.data.drop offset).take size

/-- The fixed timestamp snapshot captured from the backing image file at
construction (`int(g_stat.st_ctime)` etc.). -/
structure GStat where
  st_ctime : Int
  st_mtime : Int
  st_atime : Int
deriving DecidableEq, Repr

/-- The caller identity triple returned by `fuse_get_context()`. -/
structure FuseContext where
  uid : Nat
  gid : Nat
  pid : Nat
deriving DecidableEq, Repr

/-- The error the adapter raises to the dispatcher:
`FuseOSError(ENOENT)` is the only error it ever constructs. -/
inductive FuseError where
  | ENOENT
deriving DecidableEq, Repr

/-- The attribute record `getattr` returns: the merge
`{**st, **self.g_stat, 'st_uid': uid, 'st_gid': gid}`. The directory
branch of the code sets no `st_size` key, hence the `Option`. -/
structure Stat where
  st_mode : Nat
  st_nlink : Nat
  st_size : Option Nat
  st_ctime : Int
  st_mtime : Int
  st_atime : Int
  st_uid : Nat
  st_gid : Nat
deriving DecidableEq, Repr

/-- The volume-statistics record `statfs` returns. -/
structure StatVFS where
  f_bsize : Nat
  f_blocks : Nat
  f_bavail : Nat
  f_bfree : Nat
  f_files : Nat
deriving DecidableEq, Repr

/-- `stat.S_IFDIR`. -/
def S_IFDIR : Nat := 0o040000

/-- `stat.S_IFREG`. -/
def S_IFREG : Nat := 0o100000

/-- The adapter in its Active state: the handle counter `fd`, the
timestamp snapshot, and the Reader established by `init`. -/
structure RomFSMount where
  fd : Nat
  g_stat : GStat
  reader : Reader

/-- `RomFSMount.getattr`: resolves the path (NotFound ↦ `ENOENT`);
synthesizes `S_IFDIR | 0o555` with link count 2 for a directory,
`S_IFREG | 0o444` with link count 1 and the entry's size for a file,
`ENOENT` for any other type tag; merges in the timestamp snapshot and the
calling context's uid/gid. -/
def RomFSMount.getattr (m : RomFSMount) (path : String) (ctx : FuseContext) :
    Except FuseError Stat :=
  match m.reader.lookup path with
  | none => Except.error FuseError.ENOENT
  | some item =>
    if item.type = "dir" then
      Except.ok { st_mode := S_IFDIR ||| 0o555, st_nlink := 2, st_size := none,
                  st_ctime := m.g_stat.st_ctime, st_mtime := m.g_stat.st_mtime,
                  st_atime := m.g_stat.st_atime, st_uid := ctx.uid, st_gid := ctx.gid }
    else if item.type = "file" then
      Except.ok { st_mode := S_IFREG ||| 0o444, st_nlink := 1, st_size := some item.size,
                  st_ctime := m.g_stat.st_ctime, st_mtime := m.g_stat.st_mtime,
                  st_atime := m.g_stat.st_atime, st_uid := ctx.uid, st_gid := ctx.gid }
    else
      Except.error FuseError.ENOENT

/-- `RomFSMount.open` (named `open_file` here since `open` is a Lean
keyword): increments the handle counter and returns it; the path and the
flags are never inspected. -/
def RomFSMount.open_file (m : RomFSMount) (path : String) (flags : Nat) :
    RomFSMount × Nat :=
  let m2 : RomFSMount := { m with fd := m.fd + 1 }
  (m2, m2.fd)

/-- `RomFSMount.readdir`: resolves the path (NotFound ↦ `ENOENT`), then
yields "." and ".." followed by the entry's child names in Reader
order. -/
def RomFSMount.readdir (m : RomFSMount) (path : String) (fh : Nat) :
    Except FuseError (List String) :=
  match m.reader.lookup path with
  | none => Except.error FuseError.ENOENT
  | some item => Except.ok ("." :: ".." :: item.contents)

/-- `RomFSMount.read`: resolves the path (NotFound ↦ `ENOENT`); returns
empty when `item.offset + offset > item.offset + item.size`; shrinks
`size` to `item.size - offset` when `offset + size > item.size`; then
delegates to the Reader's `get_data`. -/
def RomFSMount.read (m : RomFSMount) (path : String) (size offset fh : Nat) :
    Except FuseError (List Nat) :=
  match m.reader.lookup path with
  | none => Except.error FuseError.ENOENT
  | some item =>
    if item.offset + offset > item.offset + item.size then
      Except.ok []
    else
      let size := if offset + size > item.size then item.size - offset else size
      Except.ok (Reader.get_data item offset size)

/-- The delegation decision inside `RomFSMount.read`, made explicit:
`none` when the empty-return guard fires, otherwise the (offset, size)
pair handed to the Reader's `get_data`. -/
def read_delegation (item : Entry) (size offset : Nat) : Option (Nat × Nat) :=
  if item.offset + offset > item.offset + item.size then none
  else if offset + size > item.size then some (offset, item.size - offset)
  else some (offset, size)

/-- `RomFSMount.statfs`: resolves the path (NotFound ↦ `ENOENT`); reports
block size 4096, `total_size // 4096` blocks, zero available and free
blocks, and the resolved entry's child count as the file count. -/
def RomFSMount.statfs (m : RomFSMount) (path : String) :
    Except FuseError StatVFS :=
  match m.reader.lookup path with
  | none => Except.error FuseError.ENOENT
  | some item =>
    Except.ok { f_bsize := 4096, f_blocks := m.reader.total_size / 4096,
                f_bavail := 0, f_bfree := 0, f_files := item.contents.length }

/-- Runs a sequence of `open` calls (path, flags pairs) against the
adapter, threading the handle counter and collecting the returned
handles in call order. -/
def runOpens (m : RomFSMount) : List (String × Nat) → RomFSMount × List Nat
  | [] => (m, [])
  | c :: cs =>
    let r := m.open_file c.1 c.2
    let rest := runOpens r.1 cs
    (rest.1, r.2 :: rest.2)

/-- The teardown-relevant state of `__del__` / `destroy`: whether the
backing file object has been closed, whether `self.reader` was ever set
by `init` (it is `None` until then), and whether the Reader has been
closed. -/
structure TeardownState where
  f_closed : Bool
  has_reader : Bool
  reader_closed : Bool
deriving DecidableEq, Repr

/-- The Python-level error relevant to `__del__`: attribute access on
`None` (`self.reader.close()` before `init`) raises `AttributeError`,
the only exception that block can produce. -/
inductive PyError where
  | AttributeError
deriving DecidableEq, Repr

/-- `self.f.close()`: closing a Python file object is idempotent — a
no-op when already closed, never an error. -/
def close_backing (s : TeardownState) : TeardownState :=
  { s with f_closed := true }

/-- Modelled from the spec: the Reader's `close(reader)` together with
the attribute access `self.reader.close`. When `self.reader` is `None`
(initialization never ran) the attribute access raises
`AttributeError`; otherwise closing is idempotent-safe per the spec's
teardown contract. -/
def reader_close_op (s : TeardownState) : Except PyError TeardownState :=
  if s.has_reader then Except.ok { s with reader_closed := true }
  else Except.error PyError.AttributeError

/-- `RomFSMount.__del__` (aliased as `destroy`): tries
`self.f.close(); self.reader.close()`, swallowing `AttributeError`. -/
def RomFSMount.destroy (s : TeardownState) : Except PyError TeardownState :=
  let s1 := close_backing s
  match reader_close_op s1 with
  | Except.ok s2 => Except.ok s2
  | Except.error PyError.AttributeError => Except.ok s1

/-- A concrete file entry: 10 bytes 0..9 at archive offset 0x1000. -/
def demoFile : Entry :=
  { type := "file", size := 10, offset := 0x1000, contents := [],
    data := [0, 1, 2, 3, 4, 5, 6, 7, 8, 9] }

/-- A concrete root directory entry with two children. -/
def demoDir : Entry :=
  { type := "dir", size := 0, offset := 0, contents := ["sub", "f.bin"],
    data := [] }

/-- A concrete Reader over a two-entry archive. -/
def demoReader : Reader :=
  { lookup := fun p =>
      if p = "/" then some demoDir
      else if p = "/A.TXT" then some demoFile
      else none,
    total_size := 8192 }

/-- A concrete adapter instance in its Active state. -/
def demoMount : RomFSMount :=
  { fd := 0,
    g_stat := { st_ctime := 100, st_mtime := 200, st_atime := 300 },
    reader := demoReader }

/-- A concrete calling context. -/
def demoCtx : FuseContext := { uid := 1000, gid := 1000, pid := 42 }

/-- Claim C1: read clamping. For a file entry of size `S` reachable at
`path`, `read` returns empty when `offset ≥ S`; exactly `S - offset`
bytes when `offset < S < offset + size`; exactly `size` bytes when
`offset + size ≤ S`. -/
theorem read_clamping (m : RomFSMount) (path : String) (item : Entry)
    (size offset fh : Nat) (hlk : m.reader.lookup path = some item)
    (hty : item.type = "file") (hwf : item.data.length = item.size) :
    (item.size ≤ offset → m.read path size offset fh = Except.ok []) ∧
    (offset < item.size → item.size < offset + size →
      ∃ bs, m.read path size offset fh = Except.ok bs ∧ bs.length = item.size - offset) ∧
    (offset + size ≤ item.size →
      ∃ bs, m.read path size offset fh = Except.ok bs ∧ bs.length = size) := by
  simp only [RomFSMount.read, hlk]
  refine ⟨?_, ?_, ?_⟩
  · intro h
    split_ifs with h1 h2
    · rfl
    · have hz : item.size - offset = 0 := by omega
      simp [Reader.get_data, hz]
    · have hz : size = 0 := by omega
      simp [Reader.get_data, hz]
  · intro h1 h2
    rw [if_neg (by omega), if_pos (by omega)]
    refine ⟨_, rfl, ?_⟩
    simp only [Reader.get_data, List.length_take, List.length_drop, hwf]
    omega
  · intro h
    rw [if_neg (by omega), if_neg (by omega)]
    refine ⟨_, rfl, ?_⟩
    simp only [Reader.get_data, List.length_take, List.length_drop, hwf]
    omega

/-- Witness for C1 at the spec's scenario: a 10-byte file `/A.TXT`;
`read(5, 10)` is empty, `read(100, 5)` returns 5 bytes, `read(3, 2)`
returns 3 bytes. -/
theorem read_clamping_witness :
    demoMount.read "/A.TXT" 5 10 1 = Except.ok [] ∧
    (∃ bs, demoMount.read "/A.TXT" 100 5 1 = Except.ok bs ∧ bs.length = demoFile.size - 5) ∧
    (∃ bs, demoMount.read "/A.TXT" 3 2 1 = Except.ok bs ∧ bs.length = 3) :=
  ⟨(read_clamping demoMount "/A.TXT" demoFile 5 10 1 (by decide) (by decide)
      (by decide)).1 (by decide),
   (read_clamping demoMount "/A.TXT" demoFile 100 5 1 (by decide) (by decide)
      (by decide)).2.1 (by decide) (by decide),
   (read_clamping demoMount "/A.TXT" demoFile 3 2 1 (by decide) (by decide)
      (by decide)).2.2 (by decide)⟩

/-- Claim C2: clamp-before-delegate safety. `read` is exactly the
delegation decision `read_delegation` followed by `get_data`, and
whenever the decision delegates, the (offset, size) pair handed to the
Reader satisfies its precondition `offset + size ≤ item.size`. -/
theorem read_delegation_in_bounds (m : RomFSMount) (path : String) (item : Entry)
    (size offset fh : Nat) (hlk : m.reader.lookup path = some item) :
    m.read path size offset fh =
      (match read_delegation item size offset with
       | none => Except.ok []
       | some p => Except.ok (Reader.get_data item p.1 p.2)) ∧
    ∀ o s, read_delegation item size offset = some (o, s) → o + s ≤ item.size := by
  constructor
  · simp only [RomFSMount.read, hlk, read_delegation]
    split_ifs <;> rfl
  · intro o s h
    simp only [read_delegation] at h
    split_ifs at h with h1 h2 <;>
      simp only [Option.some.injEq, Prod.mk.injEq] at h <;> omega

/-- Witness for C2: on the 10-byte file, a request of 100 bytes at
offset 5 delegates with the pair (5, 5), which satisfies 5 + 5 ≤ 10. -/
theorem read_delegation_in_bounds_witness :
    read_delegation demoFile 100 5 = some (5, 5) ∧ 5 + 5 ≤ demoFile.size :=
  ⟨by decide,
   (read_delegation_in_bounds demoMount "/A.TXT" demoFile 100 5 1 (by decide)).2
     5 5 (by decide)⟩

/-- Claim C3: NotFound mapping. When the Reader reports the path as not
found, `getattr`, `readdir`, `read` and `statfs` each fail with the
defined `ENOENT` error — never a crash or a partial result. -/
theorem notfound_mapping (m : RomFSMount) (path : String) (ctx : FuseContext)
    (size offset fh fh2 : Nat) (h : m.reader.lookup path = none) :
    m.getattr path ctx = Except.error FuseError.ENOENT ∧
    m.readdir path fh = Except.error FuseError.ENOENT ∧
    m.read path size offset fh2 = Except.error FuseError.ENOENT ∧
    m.statfs path = Except.error FuseError.ENOENT := by
  simp [RomFSMount.getattr, RomFSMount.readdir, RomFSMount.read, RomFSMount.statfs, h]

/-- Witness for C3 at the nonexistent path "/missing". -/
theorem notfound_mapping_witness :
    demoMount.getattr "/missing" demoCtx = Except.error FuseError.ENOENT ∧
    demoMount.readdir "/missing" 1 = Except.error FuseError.ENOENT ∧
    demoMount.read "/missing" 4 0 1 = Except.error FuseError.ENOENT ∧
    demoMount.statfs "/missing" = Except.error FuseError.ENOENT :=
  notfound_mapping demoMount "/missing" demoCtx 4 0 1 1 (by decide)

/-- Claim C4: attribute synthesis. A directory path yields mode
`S_IFDIR | 0o555` with link count 2 and no size; a file path yields mode
`S_IFREG | 0o444` with link count 1 and the entry's size; both carry the
startup timestamp snapshot and the calling context's uid and gid. -/
theorem getattr_synthesis (m : RomFSMount) (path : String) (item : Entry)
    (ctx : FuseContext) (hlk : m.reader.lookup path = some item) :
    (item.type = "dir" → m.getattr path ctx =
      Except.ok { st_mode := S_IFDIR ||| 0o555, st_nlink := 2, st_size := none,
                  st_ctime := m.g_stat.st_ctime, st_mtime := m.g_stat.st_mtime,
                  st_atime := m.g_stat.st_atime, st_uid := ctx.uid, st_gid := ctx.gid }) ∧
    (item.type = "file" → m.getattr path ctx =
      Except.ok { st_mode := S_IFREG ||| 0o444, st_nlink := 1, st_size := some item.size,
                  st_ctime := m.g_stat.st_ctime, st_mtime := m.g_stat.st_mtime,
                  st_atime := m.g_stat.st_atime, st_uid := ctx.uid, st_gid := ctx.gid }) := by
  constructor <;> intro hty <;> simp [RomFSMount.getattr, hlk, hty]

/-- Witness for C4 at the root directory and the 10-byte file. -/
theorem getattr_synthesis_witness :
    demoMount.getattr "/" demoCtx =
      Except.ok { st_mode := S_IFDIR ||| 0o555, st_nlink := 2, st_size := none,
                  st_ctime := 100, st_mtime := 200, st_atime := 300,
                  st_uid := 1000, st_gid := 1000 } ∧
    demoMount.getattr "/A.TXT" demoCtx =
      Except.ok { st_mode := S_IFREG ||| 0o444, st_nlink := 1, st_size := some 10,
                  st_ctime := 100, st_mtime := 200, st_atime := 300,
                  st_uid := 1000, st_gid := 1000 } :=
  ⟨(getattr_synthesis demoMount "/" demoDir demoCtx (by decide)).1 (by decide),
   (getattr_synthesis demoMount "/A.TXT" demoFile demoCtx (by decide)).2 (by decide)⟩

/-- Counterexample to claim C5 as stated: `open` with the write flag
`O_WRONLY` (flag value 1) is not rejected — it returns handle 1, and
behaves identically to a read-only open (flag value 0). -/
theorem open_write_flag_returns_handle :
    (demoMount.open_file "/A.TXT" 1).2 = 1 ∧
    demoMount.open_file "/A.TXT" 1 = demoMount.open_file "/A.TXT" 0 :=
  ⟨rfl, rfl⟩

/-- Claim C5 as amended: `open` never inspects its flags argument — for
every flags value, including write flags, it returns a fresh handle
(the incremented counter) and never fails; read-only enforcement is left
to the mount layer, not performed by `open`. -/
theorem open_ignores_flags (m : RomFSMount) (path : String) (flags flags2 : Nat) :
    m.open_file path flags = ({ m with fd := m.fd + 1 }, m.fd + 1) ∧
    m.open_file path flags = m.open_file path flags2 :=
  ⟨rfl, rfl⟩

/-- Claim C6: teardown safety. `destroy` always completes without an
uncaught error, a second `destroy` on the resulting state also
completes, and on a never-initialized adapter (no Reader) it just
closes the backing file, swallowing the `AttributeError`. -/
theorem destroy_idempotent_safe (s : TeardownState) :
    (∃ t, RomFSMount.destroy s = Except.ok t ∧
      ∃ u, RomFSMount.destroy t = Except.ok u) ∧
    (s.has_reader = false → RomFSMount.destroy s = Except.ok (close_backing s)) := by
  unfold RomFSMount.destroy reader_close_op close_backing
  cases hr : s.has_reader <;> simp [hr]

/-- Witness for C6: a never-initialized adapter state and an active
adapter state each survive two successive `destroy` calls, and the
never-initialized case returns the file-closed state. -/
theorem destroy_idempotent_safe_witness :
    (∃ t, RomFSMount.destroy { f_closed := false, has_reader := false, reader_closed := false } = Except.ok t ∧
      ∃ u, RomFSMount.destroy t = Except.ok u) ∧
    RomFSMount.destroy { f_closed := false, has_reader := false, reader_closed := false } =
      Except.ok (close_backing { f_closed := false, has_reader := false, reader_closed := false }) ∧
    (∃ t, RomFSMount.destroy { f_closed := false, has_reader := true, reader_closed := false } = Except.ok t ∧
      ∃ u, RomFSMount.destroy t = Except.ok u) :=
  ⟨(destroy_idempotent_safe { f_closed := false, has_reader := false, reader_closed := false }).1,
   (destroy_idempotent_safe { f_closed := false, has_reader := false, reader_closed := false }).2 rfl,
   (destroy_idempotent_safe { f_closed := false, has_reader := true, reader_closed := false }).1⟩

/-- Claim C7: handle monotonicity. A sequence of `open` calls returns
the consecutive handles `fd+1, fd+2, ...` — strictly increasing, hence
never reused — and when the counter starts at 0 the handles are
`1, 2, ..., n`. -/
theorem open_handles_monotone (m : RomFSMount) (cs : List (String × Nat)) :
    (runOpens m cs).2 = List.range' (m.fd + 1) cs.length ∧
    List.Pairwise (· < ·) (runOpens m cs).2 ∧
    (m.fd = 0 → (runOpens m cs).2 = List.range' 1 cs.length) := by
  have key : ∀ (m : RomFSMount) (cs : List (String × Nat)),
      (runOpens m cs).2 = List.range' (m.fd + 1) cs.length := by
    intro m cs
    induction cs generalizing m with
    | nil => rfl
    | cons c cs ih => simp [runOpens, RomFSMount.open_file, ih, List.range']
  refine ⟨key m cs, ?_, ?_⟩
  · rw [key]
    exact List.pairwise_lt_range' _ _
  · intro h0
    rw [key, h0]

/-- Witness for C7: three opens on a fresh adapter yield handles
1, 2, 3 in order, pairwise strictly increasing. -/
theorem open_handles_monotone_witness :
    (runOpens demoMount [("/A.TXT", 0), ("/", 0), ("/x", 1)]).2 = List.range' 1 3 ∧
    List.Pairwise (· < ·) (runOpens demoMount [("/A.TXT", 0), ("/", 0), ("/x", 1)]).2 :=
  ⟨(open_handles_monotone demoMount [("/A.TXT", 0), ("/", 0), ("/x", 1)]).2.2 rfl,
   (open_handles_monotone demoMount [("/A.TXT", 0), ("/", 0), ("/x", 1)]).2.1⟩

/-- Claim C8: directory listing shape and order. For a path resolving to
a directory entry, `readdir` yields "." and ".." first — also when the
directory has zero children — followed by exactly the entry's child
names in Reader order, unsorted. -/
theorem readdir_shape (m : RomFSMount) (path : String) (item : Entry) (fh : Nat)
    (hlk : m.reader.lookup path = some item) (hty : item.type = "dir") :
    m.readdir path fh = Except.ok ("." :: ".." :: item.contents) := by
  simp [RomFSMount.readdir, hlk]

/-- Witness for C8: the root listing is [".", "..", "sub", "f.bin"] in
Reader order. -/
theorem readdir_shape_witness :
    demoMount.readdir "/" 1 = Except.ok [".", "..", "sub", "f.bin"] :=
  readdir_shape demoMount "/" demoDir 1 (by decide) (by decide)

/-- Claim C9: volume statistics. For every resolving path, `statfs`
reports block size 4096, `total_size / 4096` total blocks, zero free and
available blocks, and the resolved entry's child count as the file
count. -/
theorem statfs_values (m : RomFSMount) (path : String) (item : Entry)
    (hlk : m.reader.lookup path = some item) :
    m.statfs path =
      Except.ok { f_bsize := 4096, f_blocks := m.reader.total_size / 4096,
                  f_bavail := 0, f_bfree := 0, f_files := item.contents.length } := by
  simp [RomFSMount.statfs, hlk]

/-- Witness for C9 at the root of the 8192-byte demo archive: 2 blocks,
2 files. -/
theorem statfs_values_witness :
    demoMount.statfs "/" =
      Except.ok { f_bsize := 4096, f_blocks := 2, f_bavail := 0, f_bfree := 0,
                  f_files := 2 } :=
  statfs_values demoMount "/" demoDir (by decide)

/-- Claim C10: `open` never resolves the path. Its result is fully
determined by the handle counter — the same for every path, existing or
not, and for every flags value it succeeds with a fresh handle, never
failing with NotFound. -/
theorem open_never_resolves (m : RomFSMount) (path path2 : String) (flags : Nat) :
    m.open_file path flags = ({ m with fd := m.fd + 1 }, m.fd + 1) ∧
    m.open_file path flags = m.open_file path2 flags :=
  ⟨rfl, rfl⟩
